import Mathlib

/-!
Verification development for the gitsummarizer repository.

Shallow embedding of the Python sources:
  gitsummarizer/config.py       (settings document, load/save, getters/setters)
  gitsummarizer/models/base.py  (template resolution, prompt creation)
  gitsummarizer/models/*.py     (provider construction)
  gitsummarizer/models/__init__.py (provider dispatch)
  gitsummarizer/summarizer.py   (orchestrator)
  gitsummarizer/git_utils.py    (commit-detail diff rendering, date-range log)

Python exceptions are modelled with an explicit error type and `Except`;
machine-external effects (the git repository query, the network call of a
model provider, the environment) are parameters of the embedded functions.
-/

namespace GitSummarizer

/-- Exception classes raised by the Python code: GitError (git_utils.py),
ModelError (models/base.py), and the built-in ValueError / KeyError /
IndexError.  Each carries the str(e) message text. -/
inductive Err where
  | gitError (msg : String)
  | modelError (msg : String)
  | valueError (msg : String)
  | keyError (msg : String)
  | indexError (msg : String)
deriving DecidableEq, Repr

/-- Python truthiness of `a or b` for a string `a`: the empty string is
falsy, so `a or b` is `b` when `a` is empty and `a` otherwise. -/
def pyOrS (a b : String) : String := if a = "" then b else a

/-- Python `a or b` where `a : Optional[str]` and `b : str`:
both None and the empty string are falsy. -/
def pyOrOS : Option String → String → String
  | some s, d => if s = "" then d else s
  | none, d => d

/-- Python `a or b` where both operands are `Optional[str]`. -/
def pyOrOO : Option String → Option String → Option String
  | some s, d => if s = "" then d else some s
  | none, d => d

/-- Python falsiness of an `Optional[str]` value: None and "" are falsy. -/
def pyFalsy : Option String → Bool
  | none => true
  | some s => s = ""

/-- State of the `str.format` scanner: either in literal text, or inside a
replacement field accumulating the field name (in reverse). -/
inductive FmtState where
  | text
  | field (acc : List Char)

/-- Model of CPython `template.format(git_data=v)` restricted to the shapes
the repository uses: literal text, doubled braces, and plain named
replacement fields.  A field named git_data is substituted with `v`; any
other field name raises KeyError; an empty field raises IndexError (no
positional argument is supplied); an unmatched brace raises ValueError.
A template with no replacement field at all is returned unchanged -
`str.format` ignores unused keyword arguments. -/
def pyFormatGo (v : String) : FmtState → List Char → Except Err (List Char)
  | .text, [] => .ok []
  | .field _, [] =>
      .error (.valueError "Single brace encountered in format string")
  | .text, [c] =>
      if c = '{' ∨ c = '}' then
        .error (.valueError "Single brace encountered in format string")
      else .ok [c]
  | .text, c :: d :: rest =>
      if c = '{' then
        if d = '{' then (fun t => '{' :: t) <$> pyFormatGo v .text rest
        else pyFormatGo v (.field []) (d :: rest)
      else if c = '}' then
        if d = '}' then (fun t => '}' :: t) <$> pyFormatGo v .text rest
        else .error (.valueError "Single brace encountered in format string")
      else
        (fun t => c :: t) <$> pyFormatGo v .text (d :: rest)
  | .field acc, c :: rest =>
      if c = '}' then
        if acc.isEmpty then
          .error (.indexError "Replacement index 0 out of range")
        else if String.mk acc.reverse = "git_data" then
          (fun t => v.data ++ t) <$> pyFormatGo v .text rest
        else
          .error (.keyError (String.mk acc.reverse))
      else
        pyFormatGo v (.field (c :: acc)) rest

/-- `tmpl.format(git_data=v)` as used by LLMProvider.create_prompt. -/
def pyFormat (tmpl v : String) : Except Err String :=
  String.mk <$> pyFormatGo v .text tmpl.data

/-- A character list free of brace characters: such text is copied verbatim
by the format scanner. -/
def braceFree (l : List Char) : Bool :=
  l.all (fun c => c ≠ '{' && c ≠ '}')

theorem pyFormatGo_braceFree (v : String) :
    ∀ l : List Char, braceFree l = true → pyFormatGo v .text l = .ok l := by
  intro l
  induction l with
  | nil => intro _; rfl
  | cons c rest ih =>
    intro h
    rw [braceFree, List.all_cons] at h
    obtain ⟨hc, hrest⟩ := Bool.and_eq_true_iff.mp h
    obtain ⟨hc1, hc2⟩ := Bool.and_eq_true_iff.mp hc
    have hc1' : c ≠ '{' := by simpa using hc1
    have hc2' : c ≠ '}' := by simpa using hc2
    cases rest with
    | nil => simp [pyFormatGo, hc1', hc2']
    | cons d rest2 =>
      simp only [pyFormatGo, hc1', hc2', if_false, ih hrest]
      rfl

theorem pyFormatGo_placeholder (v : String) (b : List Char)
    (hb : braceFree b = true) :
    ∀ a : List Char, braceFree a = true →
      pyFormatGo v .text (a ++ "{git_data}".data ++ b) =
        .ok (a ++ v.data ++ b) := by
  intro a
  induction a with
  | nil =>
    intro _
    simp only [List.nil_append]
    show pyFormatGo v .text ('{' :: 'g' :: "it_data\x7d".data ++ b) =
      .ok (v.data ++ b)
    simp [pyFormatGo, pyFormatGo_braceFree v b hb]
  | cons c rest ih =>
    intro ha
    rw [braceFree, List.all_cons] at ha
    obtain ⟨hc, hrest⟩ := Bool.and_eq_true_iff.mp ha
    obtain ⟨hc1, hc2⟩ := Bool.and_eq_true_iff.mp hc
    have hc1' : c ≠ '{' := by simpa using hc1
    have hc2' : c ≠ '}' := by simpa using hc2
    simp only [List.cons_append]
    cases hrw : rest ++ "{git_data}".data ++ b with
    | nil => exact absurd hrw (by simp)
    | cons d tail =>
      simp only [pyFormatGo, hc1', hc2', if_false]
      rw [← hrw, ih hrest]
      rfl

/-- `pyFormat` on a template of the shape pre ++ "{git_data}" ++ post with
brace-free pre and post substitutes `v` for the placeholder. -/
theorem pyFormat_placeholder (pre post v : String)
    (hpre : braceFree pre.data = true) (hpost : braceFree post.data = true) :
    pyFormat (pre ++ "{git_data}" ++ post) v = .ok (pre ++ v ++ post) := by
  have hdata : (pre ++ "{git_data}" ++ post).data =
      pre.data ++ "{git_data}".data ++ post.data := by
    simp [String.data_append]
  rw [pyFormat, hdata, pyFormatGo_placeholder v post.data hpost pre.data hpre]
  rfl

/-- A template whose text contains no brace character at all is returned
unchanged by `str.format(git_data=v)` - no exception is raised. -/
theorem pyFormat_braceFree (tmpl v : String)
    (h : braceFree tmpl.data = true) : pyFormat tmpl v = .ok tmpl := by
  rw [pyFormat, pyFormatGo_braceFree v tmpl.data h]
  rfl

/-! ## The built-in default template

`LLMProvider.DEFAULT_TEMPLATE` in models/base.py and
`DEFAULT_CONFIG["prompt_templates"]["default"]` in config.py are two
byte-identical triple-quoted literals.  Each is embedded here as the text
before the placeholder, the placeholder, and the text after it; the
concatenation reproduces the literal byte for byte. -/

/-- Text of the built-in template before the git_data placeholder. -/
def templatePre : String :=
  "\n        I need you to summarize the following git repository changes in clear,\n        human-readable language. Focus on the high-level impact of the changes\n        rather than listing every file. Group related changes when possible,\n        and identify the key themes or purposes behind the commits.\n\n        Here are the git changes to summarize:\n\n        "

/-- Text of the built-in template after the git_data placeholder. -/
def templatePost : String :=
  "\n\n        Provide a concise but informative summary, highlighting:\n        1. Main purpose/theme of these changes\n        2. Key components or areas affected\n        3. Any notable technical details worth mentioning\n\n        Format your response as Markdown with appropriate headings.\n        "

/-- `LLMProvider.DEFAULT_TEMPLATE` (models/base.py, lines 24-40). -/
def DEFAULT_TEMPLATE : String := templatePre ++ "{git_data}" ++ templatePost

/-- `DEFAULT_CONFIG["prompt_templates"]["default"]` (config.py, lines
27-43): the same literal as `DEFAULT_TEMPLATE`, written in config.py. -/
def configDefaultTemplate : String :=
  templatePre ++ "{git_data}" ++ templatePost

/-! ## config.py: the settings document -/

/-- The nested "defaults" JSON object of the settings document.  A field is
`none` when the key is absent from the stored document.  The built-in
default schema has recent_commits, compare_branch and output_format but no
active_template key (that key is only written by set_active_template). -/
structure DefaultsObj where
  recent_commits : Option Int
  compare_branch : Option String
  output_format : Option String
  active_template : Option String
deriving DecidableEq, Repr

/-- A stored settings document (the parsed JSON file).  Each top-level key
of the default schema is `none` when absent.  String-keyed maps are
association lists with Python-dict lookup semantics. -/
structure ConfigDoc where
  provider : Option String
  api_keys : Option (List (String × String))
  model_preferences : Option (List (String × String))
  prompt_templates : Option (List (String × String))
  defaults : Option DefaultsObj
deriving DecidableEq, Repr

/-- A loaded settings document: after load_config every top-level key is
present (backfilled from DEFAULT_CONFIG when missing). -/
structure LoadedConfig where
  provider : String
  api_keys : List (String × String)
  model_preferences : List (String × String)
  prompt_templates : List (String × String)
  defaults : DefaultsObj
deriving DecidableEq, Repr

/-- `DEFAULT_CONFIG` (config.py, lines 16-50). -/
def DEFAULT_CONFIG : LoadedConfig where
  provider := "groq"
  api_keys := []
  model_preferences :=
    [("groq", "llama-3.2-1b-preview"), ("openai", "gpt-4o"),
     ("gemini", "gemini-2.0-flash"), ("ollama", "llama3"),
     ("anthropic", "claude-3.5-sonnet-20240229")]
  prompt_templates := [("default", configDefaultTemplate)]
  defaults :=
    { recent_commits := some 5, compare_branch := some "main",
      output_format := some "text", active_template := none }

/-- `load_config` (config.py, lines 58-77).  `stored = none` covers both a
missing config file and an unreadable one (both return
DEFAULT_CONFIG.copy()).  For a readable file, each top-level key of the
default schema that is absent is backfilled with the DEFAULT_CONFIG value;
the loop runs over top-level keys only, so nested objects are taken as
stored. -/
def load_config : Option ConfigDoc → LoadedConfig
  | none => DEFAULT_CONFIG
  | some c =>
    { provider := c.provider.getD DEFAULT_CONFIG.provider
      api_keys := c.api_keys.getD DEFAULT_CONFIG.api_keys
      model_preferences :=
        c.model_preferences.getD DEFAULT_CONFIG.model_preferences
      prompt_templates :=
        c.prompt_templates.getD DEFAULT_CONFIG.prompt_templates
      defaults := c.defaults.getD DEFAULT_CONFIG.defaults }

/-- `save_config` (config.py, lines 80-88): serializes the in-memory
document; every key it holds is written. -/
def save_config (c : LoadedConfig) : ConfigDoc where
  provider := some c.provider
  api_keys := some c.api_keys
  model_preferences := some c.model_preferences
  prompt_templates := some c.prompt_templates
  defaults := some c.defaults

/-- Python dict assignment d[k] = v on a string-keyed dict modelled as an
association list: replace the binding when the key is present, append
otherwise. -/
def dictSet (k v : String) (d : List (String × String)) :
    List (String × String) :=
  if (d.lookup k).isSome then
    d.map (fun p => if p.1 = k then (k, v) else p)
  else d ++ [(k, v)]

/-- `get_provider_api_key` (config.py, lines 91-101).  `envv` models
os.environ.get. -/
def get_provider_api_key (stored : Option ConfigDoc)
    (envv : String → Option String) (provider : String) : Option String :=
  match (load_config stored).api_keys.lookup provider with
  | some k => some k
  | none => envv (provider.toUpper ++ "_API_KEY")

/-- `set_provider_api_key` (config.py, lines 104-112). -/
def set_provider_api_key (stored : Option ConfigDoc)
    (provider api_key : String) : ConfigDoc :=
  let c := load_config stored
  save_config { c with api_keys := dictSet provider api_key c.api_keys }

/-- `get_current_provider` (config.py, lines 115-118). -/
def get_current_provider (stored : Option ConfigDoc) : String :=
  (load_config stored).provider

/-- `set_current_provider` (config.py, lines 121-125). -/
def set_current_provider (stored : Option ConfigDoc)
    (provider : String) : ConfigDoc :=
  let c := load_config stored
  save_config { c with provider := provider }

/-- `get_model_for_provider` (config.py, lines 128-131): falls back to ""
when the provider has no stored model preference. -/
def get_model_for_provider (stored : Option ConfigDoc)
    (provider : String) : String :=
  ((load_config stored).model_preferences.lookup provider).getD ""

/-- `set_model_for_provider` (config.py, lines 134-142). -/
def set_model_for_provider (stored : Option ConfigDoc)
    (provider model : String) : ConfigDoc :=
  let c := load_config stored
  save_config
    { c with model_preferences := dictSet provider model c.model_preferences }

/-- `get_default_recent_commits` (config.py, lines 145-148). -/
def get_default_recent_commits (stored : Option ConfigDoc) : Int :=
  ((load_config stored).defaults.recent_commits).getD 5

/-- `set_default_recent_commits` (config.py, lines 151-159). -/
def set_default_recent_commits (stored : Option ConfigDoc)
    (count : Int) : ConfigDoc :=
  let c := load_config stored
  save_config
    { c with defaults := { c.defaults with recent_commits := some count } }

/-- `get_default_compare_branch` (config.py, lines 162-165). -/
def get_default_compare_branch (stored : Option ConfigDoc) : String :=
  ((load_config stored).defaults.compare_branch).getD "main"

/-- `set_default_compare_branch` (config.py, lines 168-176). -/
def set_default_compare_branch (stored : Option ConfigDoc)
    (branch : String) : ConfigDoc :=
  let c := load_config stored
  save_config
    { c with defaults := { c.defaults with compare_branch := some branch } }

/-- `get_default_output_format` (config.py, lines 179-182). -/
def get_default_output_format (stored : Option ConfigDoc) : String :=
  ((load_config stored).defaults.output_format).getD "text"

/-- `set_default_output_format` (config.py, lines 185-193). -/
def set_default_output_format (stored : Option ConfigDoc)
    (format : String) : ConfigDoc :=
  let c := load_config stored
  save_config
    { c with defaults := { c.defaults with output_format := some format } }

/-- `get_prompt_template` (config.py, lines 195-205): looks the name up in
the stored prompt_templates dict and falls back to
DEFAULT_CONFIG["prompt_templates"]["default"]. -/
def config_get_prompt_template (stored : Option ConfigDoc)
    (template_name : String) : String :=
  ((load_config stored).prompt_templates.lookup template_name).getD
    configDefaultTemplate

/-- `set_prompt_template` (config.py, lines 207-220). -/
def set_prompt_template (stored : Option ConfigDoc)
    (template_name template : String) : ConfigDoc :=
  let c := load_config stored
  save_config
    { c with
      prompt_templates := dictSet template_name template c.prompt_templates }

/-- `get_active_template_name` (config.py, lines 222-225). -/
def get_active_template_name (stored : Option ConfigDoc) : String :=
  ((load_config stored).defaults.active_template).getD "default"

/-- `set_active_template` (config.py, lines 227-239). -/
def set_active_template (stored : Option ConfigDoc)
    (template_name : String) : ConfigDoc :=
  let c := load_config stored
  save_config
    { c with defaults :=
        { c.defaults with active_template := some template_name } }

/-! ## models/base.py: template resolution and prompt creation -/

/-- `LLMProvider.get_prompt_template` (models/base.py, lines 42-53): the
reserved name "default" short-circuits to the class constant; otherwise the
stored template is looked up and a falsy (empty) result falls back to the
class constant via Python `or`. -/
def base_get_prompt_template (stored : Option ConfigDoc) : String :=
  let template_name := get_active_template_name stored
  if template_name = "default" then DEFAULT_TEMPLATE
  else pyOrS (config_get_prompt_template stored template_name)
    DEFAULT_TEMPLATE

/-- `LLMProvider.create_prompt` (models/base.py, lines 55-57):
`self.get_prompt_template().format(git_data=git_data)`. -/
def create_prompt (stored : Option ConfigDoc) (git_data : String) :
    Except Err String :=
  pyFormat (base_get_prompt_template stored) git_data

/-! ## models/groq.py, openai.py, gemini.py, ollama.py: providers

Construction is a pure function here; the network call of `generate` is a
separate parameter wherever it is needed, so a constructor that returns
`.error` has performed no network call. -/

/-- State held by GroqProvider (models/groq.py). -/
structure GroqProvider where
  api_key : Option String
  model : String
deriving DecidableEq, Repr

/-- `GroqProvider.__init__` (models/groq.py, lines 13-25): stores the key
and `model or "llama-3.1-8b-instant"`, then raises ModelError when the key
is falsy (None or empty). -/
def GroqProvider.init (api_key model : Option String) :
    Except Err GroqProvider :=
  let p : GroqProvider :=
    { api_key := api_key, model := pyOrOS model "llama-3.1-8b-instant" }
  if pyFalsy p.api_key then .error (.modelError "Groq API key is required")
  else .ok p

/-- State held by OpenAIProvider (models/openai.py). -/
structure OpenAIProvider where
  api_key : Option String
  model : String
deriving DecidableEq, Repr

/-- `OpenAIProvider.__init__` (models/openai.py, lines 13-25). -/
def OpenAIProvider.init (api_key model : Option String) :
    Except Err OpenAIProvider :=
  let p : OpenAIProvider :=
    { api_key := api_key, model := pyOrOS model "gpt-4o" }
  if pyFalsy p.api_key then
    .error (.modelError "OpenAI API key is required")
  else .ok p

/-- State held by GeminiProvider (models/gemini.py). -/
structure GeminiProvider where
  api_key : Option String
  model : String
deriving DecidableEq, Repr

/-- `GeminiProvider.__init__` (models/gemini.py, lines 13-25). -/
def GeminiProvider.init (api_key model : Option String) :
    Except Err GeminiProvider :=
  let p : GeminiProvider :=
    { api_key := api_key, model := pyOrOS model "gemini-2.0-flash" }
  if pyFalsy p.api_key then
    .error (.modelError "Google API key is required")
  else .ok p

/-- State held by OllamaProvider (models/ollama.py): no credential, a model
name and the fixed localhost endpoint. -/
structure OllamaProvider where
  model : String
  api_url : String
deriving DecidableEq, Repr

/-- `OllamaProvider.__init__` (models/ollama.py, lines 13-22): never
raises; the api_key argument is unused. -/
def OllamaProvider.init (_api_key model : Option String) : OllamaProvider :=
  { model := pyOrOS model "llama3"
    api_url := "http://localhost:11434/api/generate" }

/-- A constructed provider instance (any of the four registered
variants). -/
inductive Provider where
  | groq : GroqProvider → Provider
  | openai : OpenAIProvider → Provider
  | gemini : GeminiProvider → Provider
  | ollama : OllamaProvider → Provider
deriving DecidableEq, Repr

/-- `get_provider` (models/__init__.py, lines 12-36): the PROVIDERS
dispatch table holds exactly groq, openai, gemini and ollama; anthropic.py
defines AnthropicModel but it is not registered.  An unknown name raises
ValueError before any constructor runs. -/
def get_provider (provider_name : String) (api_key model : Option String) :
    Except Err Provider :=
  if provider_name = "groq" then Provider.groq <$> GroqProvider.init api_key model
  else if provider_name = "openai" then
    Provider.openai <$> OpenAIProvider.init api_key model
  else if provider_name = "gemini" then
    Provider.gemini <$> GeminiProvider.init api_key model
  else if provider_name = "ollama" then
    .ok (Provider.ollama (OllamaProvider.init api_key model))
  else .error (.valueError ("Unknown provider: " ++ provider_name))

/-! ## summarizer.py: the orchestrator -/

/-- State held by Summarizer after __init__. -/
structure Summarizer where
  provider_name : String
  api_key : Option String
  model : String
deriving DecidableEq, Repr

/-- `Summarizer.__init__` (summarizer.py, lines 16-28): each argument wins
via Python `or` when truthy; a falsy (None or empty) argument falls back to
the stored settings, the credential and model being resolved for the
already-resolved provider name. -/
def Summarizer.init (stored : Option ConfigDoc)
    (envv : String → Option String)
    (provider_name api_key model : Option String) : Summarizer :=
  let pn := pyOrOS provider_name (get_current_provider stored)
  { provider_name := pn
    api_key := pyOrOO api_key (get_provider_api_key stored envv pn)
    model := pyOrOS model (get_model_for_provider stored pn) }

/-- The `except (git_utils.GitError, ModelError) as e: return f"Error
generating summary: {str(e)}"` boundary shared by the three summarize
operations (summarizer.py, lines 56-57, 78-79, 101-102).  Any other
exception class propagates. -/
def pyCatchGitModel (body : Except Err String) : Except Err String :=
  match body with
  | .error (.gitError m) => .ok ("Error generating summary: " ++ m)
  | .error (.modelError m) => .ok ("Error generating summary: " ++ m)
  | r => r

/-- `Summarizer.summarize_recent_commits` (summarizer.py, lines 36-57).
`git_log` is the outcome of git_utils.get_commit_log (the History Reader
query); `generate` is the outcome of the provider's network call on the
built prompt.  The body resolves the provider via get_provider
(`_get_provider`, lines 30-34), builds the prompt, and calls generate; the
whole body sits inside the GitError/ModelError catch. -/
def Summarizer.summarize_recent_commits (s : Summarizer)
    (stored : Option ConfigDoc) (git_log : Except Err String)
    (generate : Provider → String → Except Err String) : Except Err String :=
  pyCatchGitModel (do
    let log ← git_log
    let provider ← get_provider s.provider_name s.api_key (some s.model)
    let prompt ← create_prompt stored log
    generate provider prompt)

/-- `Summarizer.summarize_commit` (summarizer.py, lines 59-79):
identical glue with get_commit_details as the History Reader query. -/
def Summarizer.summarize_commit (s : Summarizer)
    (stored : Option ConfigDoc) (commit_details : Except Err String)
    (generate : Provider → String → Except Err String) : Except Err String :=
  pyCatchGitModel (do
    let details ← commit_details
    let provider ← get_provider s.provider_name s.api_key (some s.model)
    let prompt ← create_prompt stored details
    generate provider prompt)

/-- `Summarizer.compare_branches` (summarizer.py, lines 81-102):
identical glue with git_utils.compare_branches as the History Reader
query. -/
def Summarizer.compare_branches (s : Summarizer)
    (stored : Option ConfigDoc) (comparison : Except Err String)
    (generate : Provider → String → Except Err String) : Except Err String :=
  pyCatchGitModel (do
    let cmp ← comparison
    let provider ← get_provider s.provider_name s.api_key (some s.model)
    let prompt ← create_prompt stored cmp
    generate provider prompt)

/-! ## git_utils.py: commit-detail diff truncation and the date-range log -/

/-- One side of a changed file in `get_commit_details` (git_utils.py, lines
121-131): the loop emits `pre`-prefixed copies of the first five lines
(`a_lines[:5]` resp. `b_lines[:5]`, `pre` being "-" or "+") and appends the
ellipsis marker line "..." exactly when the side holds more than five
lines. -/
def renderDiffSide (pre : String) (lines : List String) : List String :=
  (lines.take 5).map (fun l => pre ++ l) ++
    (if 5 < lines.length then ["..."] else [])

/-- A diff entry of `get_commit_details`: the paths and, when both blobs
exist, the decoded line lists of the old and new content. -/
structure DiffEntry where
  a_path : String
  b_path : String
  content : Option (List String × List String)
deriving DecidableEq, Repr

/-- The per-diff rendering of `get_commit_details` (git_utils.py, lines
109-131): header line, then for entries with both blobs the "--- a" and
"+++ b" lines followed by both truncated sides, each emitted line
terminated by a newline. -/
def renderDiff (d : DiffEntry) : String :=
  "diff --git a/" ++ d.a_path ++ " b/" ++ d.b_path ++ "\n" ++
    (match d.content with
     | some (a_lines, b_lines) =>
        "--- a/" ++ d.a_path ++ "\n" ++ "+++ b/" ++ d.b_path ++ "\n" ++
          String.join ((renderDiffSide "-" a_lines).map (fun l => l ++ "\n")) ++
          String.join ((renderDiffSide "+" b_lines).map (fun l => l ++ "\n"))
     | none => "")

/-- Leap year rule used by datetime (proleptic Gregorian calendar). -/
def isLeapYear (y : Nat) : Bool :=
  y % 4 = 0 && (y % 100 ≠ 0 || y % 400 = 0)

/-- Days in a month of the proleptic Gregorian calendar. -/
def daysInMonth (y m : Nat) : Nat :=
  if m = 2 then (if isLeapYear y then 29 else 28)
  else if m = 4 ∨ m = 6 ∨ m = 9 ∨ m = 11 then 30
  else 31

/-- Decimal value of a digit character list. -/
def charsToNat (l : List Char) : Nat :=
  l.foldl (fun n c => 10 * n + (c.toNat - 48)) 0

/-- Model of `datetime.strptime(s, "%Y-%m-%d")` succeeding: CPython's
_strptime matches the anchored regex %Y = four digits, %m = one or two
digits in 1..12, %d = one or two digits in 1..31 (a leading zero being
optional), and the datetime constructor then requires year ≥ 1 and the
day to exist in the month. -/
def isValidDate (s : String) : Bool :=
  match s.data.splitOnP (fun c => c = '-') with
  | [ys, ms, ds] =>
    ys.length == 4 && ys.all Char.isDigit &&
    decide (1 ≤ ms.length ∧ ms.length ≤ 2) && ms.all Char.isDigit &&
    decide (1 ≤ ds.length ∧ ds.length ≤ 2) && ds.all Char.isDigit &&
    (let y := charsToNat ys
     let m := charsToNat ms
     let d := charsToNat ds
     decide (1 ≤ y ∧ 1 ≤ m ∧ m ≤ 12 ∧ 1 ≤ d ∧ d ≤ daysInMonth y m))
  | _ => false

/-- A commit as consumed by `get_commits_in_time_range`: the fields the
formatting reads.  `date` stands for the strftime-rendered author date. -/
structure Commit where
  hexsha : String
  message : String
  authorName : String
  authorEmail : String
  date : String
deriving DecidableEq, Repr

/-- Per-commit rendering of `get_commits_in_time_range` (git_utils.py,
lines 173-178). -/
def formatRangeCommit (c : Commit) : String :=
  c.hexsha.take 7 ++ " " ++ ((c.message.splitOn "\n").headD "") ++ "\n" ++
    "Author: " ++ c.authorName ++ " <" ++ c.authorEmail ++ ">\n" ++
    "Date:   " ++ c.date ++ "\n\n"

/-- Stand-in for the text of the ValueError raised by strptime on an
invalid date; the Python message varies with the input and no claim
depends on it. -/
def strptimeErrorDetail : String := "time data does not match format"

/-- `get_commits_in_time_range` (git_utils.py, lines 139-185): validates
both dates with strptime before the repository is queried for commits (the
ValueError of strptime is caught at line 182 and re-raised as a GitError
naming the invalid date format); with valid dates, an empty window yields
the literal no-commits sentinel, and a non-empty one the formatted log.
`commits` is the value the repository query would return. -/
def get_commits_in_time_range (start_date end_date : String)
    (commits : List Commit) : Except Err String :=
  if isValidDate start_date && isValidDate end_date then
    if commits.isEmpty then
      .ok ("No commits found between " ++ start_date ++ " and " ++ end_date)
    else
      .ok ("Commits between " ++ start_date ++ " and " ++ end_date ++
        ":\n\n" ++ String.join (commits.map formatRangeCommit))
  else
    .error (.gitError ("Invalid date format: " ++ strptimeErrorDetail ++
      ". Please use YYYY-MM-DD format."))

/-! ## Claims -/

set_option maxRecDepth 10000 in
/-- Claim C2: with the active template name "default", prompt rendering
yields the built-in constant template with the history text substituted,
regardless of any stored template entry literally named "default"; and
with an unknown active template name (one with no stored entry), rendering
yields the same built-in default template output. -/
theorem claim_C2 (stored : Option ConfigDoc) (x : String) :
    (get_active_template_name stored = "default" →
      create_prompt stored x = .ok (templatePre ++ x ++ templatePost)) ∧
    ((load_config stored).prompt_templates.lookup
        (get_active_template_name stored) = none →
      create_prompt stored x = .ok (templatePre ++ x ++ templatePost)) := by
  have hpre : braceFree templatePre.data = true := by decide
  have hpost : braceFree templatePost.data = true := by decide
  have hsub : pyFormat DEFAULT_TEMPLATE x = .ok (templatePre ++ x ++ templatePost) :=
    pyFormat_placeholder templatePre templatePost x hpre hpost
  have hdef : ∀ h : get_active_template_name stored = "default",
      create_prompt stored x = .ok (templatePre ++ x ++ templatePost) := by
    intro h
    rw [create_prompt, base_get_prompt_template]
    simp only [h, if_pos]
    exact hsub
  refine ⟨hdef, ?_⟩
  intro h
  by_cases hd : get_active_template_name stored = "default"
  · exact hdef hd
  · rw [create_prompt, base_get_prompt_template]
    simp only [hd, if_false]
    rw [config_get_prompt_template, h]
    have hne : configDefaultTemplate ≠ "" := by decide
    rw [Option.getD_none, pyOrS, if_neg hne]
    exact hsub

/-- Witness for C2: a stored document whose prompt_templates holds an entry
literally named "default" (with active name "default"), and one whose
active name "missing" has no stored entry; both render the built-in
template with the text substituted. -/
theorem claim_C2_witness :
    create_prompt
        (some ⟨none, none, none, some [("default", "HACKED")], none⟩) "X" =
      .ok (templatePre ++ "X" ++ templatePost) ∧
    create_prompt
        (some ⟨none, none, none, some [],
          some ⟨none, none, none, some "missing"⟩⟩) "X" =
      .ok (templatePre ++ "X" ++ templatePost) :=
  ⟨(claim_C2 _ "X").1 rfl, (claim_C2 _ "X").2 rfl⟩

/-- Counterexample to claim C3: a resolved template that lacks the
git_data placeholder is silently accepted by create_prompt and returned
unsubstituted, instead of failing - str.format ignores an unused keyword
argument. -/
theorem claim_C3_counterexample :
    base_get_prompt_template
        (some ⟨none, none, none, some [("custom", "no placeholder here")],
          some ⟨none, none, none, some "custom"⟩⟩) =
      "no placeholder here" ∧
    create_prompt
        (some ⟨none, none, none, some [("custom", "no placeholder here")],
          some ⟨none, none, none, some "custom"⟩⟩) "X" =
      .ok "no placeholder here" := ⟨rfl, rfl⟩

/-- Claim C3 as amended: prompt rendering does not fail when the resolved
template lacks the substitution placeholder; a template with no
replacement field at all (no brace characters) is silently accepted and
returned unsubstituted.  (Rendering fails only on a replacement field
other than the git_data placeholder or on an unmatched brace.) -/
theorem claim_C3 (stored : Option ConfigDoc) (x : String)
    (h : braceFree (base_get_prompt_template stored).data = true) :
    create_prompt stored x = .ok (base_get_prompt_template stored) :=
  pyFormat_braceFree _ x h

/-- Witness for C3: the same stored document as the counterexample; its
resolved template is brace-free and is returned unchanged. -/
theorem claim_C3_witness :
    braceFree (base_get_prompt_template
        (some ⟨none, none, none, some [("custom", "no placeholder here")],
          some ⟨none, none, none, some "custom"⟩⟩)).data = true ∧
    create_prompt
        (some ⟨none, none, none, some [("custom", "no placeholder here")],
          some ⟨none, none, none, some "custom"⟩⟩) "X" =
      .ok (base_get_prompt_template
        (some ⟨none, none, none, some [("custom", "no placeholder here")],
          some ⟨none, none, none, some "custom"⟩⟩)) :=
  ⟨by decide, claim_C3 _ "X" (by decide)⟩

/-- Claim C4: a diff side with at most 5 lines is reproduced in full (each
line with its diff sign) and no ellipsis marker is added; a side with more
than 5 lines is rendered as exactly its first 5 lines followed by the
ellipsis marker line "...". -/
theorem claim_C4 (pre : String) (lines : List String) :
    (lines.length ≤ 5 →
      renderDiffSide pre lines = lines.map (fun l => pre ++ l)) ∧
    (5 < lines.length →
      renderDiffSide pre lines =
        (lines.take 5).map (fun l => pre ++ l) ++ ["..."]) := by
  constructor
  · intro h
    rw [renderDiffSide, if_neg (by omega), List.take_of_length_le h,
      List.append_nil]
  · intro h
    rw [renderDiffSide, if_pos h]

/-- Witness for C4: a 3-line side is reproduced in full without ellipsis;
a 7-line side is cut to its first 5 lines plus the "..." marker. -/
theorem claim_C4_witness :
    renderDiffSide "-" ["a", "b", "c"] = ["-a", "-b", "-c"] ∧
    renderDiffSide "+" ["1", "2", "3", "4", "5", "6", "7"] =
      ["+1", "+2", "+3", "+4", "+5", "..."] :=
  ⟨(claim_C4 "-" ["a", "b", "c"]).1 (by decide),
   (claim_C4 "+" ["1", "2", "3", "4", "5", "6", "7"]).2 (by decide)⟩

/-- Claim C5: each remote provider constructor (groq, openai, gemini)
raises ModelError when the credential is absent (None or empty) - the
constructor is a pure function, so no network call has happened - while
the local ollama provider constructs with no credential and carries the
fixed endpoint http://localhost:11434/api/generate. -/
theorem claim_C5 (key model : Option String) :
    (key = none ∨ key = some "" →
      GroqProvider.init key model =
          .error (.modelError "Groq API key is required") ∧
      OpenAIProvider.init key model =
          .error (.modelError "OpenAI API key is required") ∧
      GeminiProvider.init key model =
          .error (.modelError "Google API key is required")) ∧
    (OllamaProvider.init key model).api_url =
      "http://localhost:11434/api/generate" := by
  refine ⟨?_, rfl⟩
  intro h
  have hf : pyFalsy key = true := by
    rcases h with h | h <;> subst h <;> simp [pyFalsy]
  refine ⟨?_, ?_, ?_⟩ <;>
    simp [GroqProvider.init, OpenAIProvider.init, GeminiProvider.init, hf]

/-- Witness for C5 at an absent credential. -/
theorem claim_C5_witness :
    GroqProvider.init none none =
        .error (.modelError "Groq API key is required") ∧
    OpenAIProvider.init none none =
        .error (.modelError "OpenAI API key is required") ∧
    GeminiProvider.init none none =
        .error (.modelError "Google API key is required") :=
  (claim_C5 none none).1 (Or.inl rfl)

/-- Claim C8: for well-formed dates whose window holds no commits, the
range log returns the literal no-commits sentinel with both dates
substituted, as a normal (non-error) result. -/
theorem claim_C8 (start_date end_date : String)
    (hs : isValidDate start_date = true) (he : isValidDate end_date = true) :
    get_commits_in_time_range start_date end_date [] =
      .ok ("No commits found between " ++ start_date ++ " and " ++
        end_date) := by
  rw [get_commits_in_time_range, hs, he]
  rfl

/-- Witness for C8 at a concrete empty window. -/
theorem claim_C8_witness :
    isValidDate "2024-01-01" = true ∧ isValidDate "2024-02-01" = true ∧
    get_commits_in_time_range "2024-01-01" "2024-02-01" [] =
      .ok "No commits found between 2024-01-01 and 2024-02-01" :=
  ⟨by decide, by decide, claim_C8 "2024-01-01" "2024-02-01" (by decide) (by decide)⟩

/-- Counterexample to claim C9: starting from a stored document whose
"defaults" object is empty, setting recent_commits and loading yields a
document whose defaults hold recent_commits but still lack the
compare_branch (and output_format) keys of the default schema - load_config
backfills missing top-level keys only, not nested ones. -/
theorem claim_C9_counterexample :
    (load_config (some (set_default_recent_commits
        (some ⟨none, none, none, none, some ⟨none, none, none, none⟩⟩)
        7))).defaults.recent_commits = some 7 ∧
    (load_config (some (set_default_recent_commits
        (some ⟨none, none, none, none, some ⟨none, none, none, none⟩⟩)
        7))).defaults.compare_branch = none ∧
    (load_config (some (set_default_recent_commits
        (some ⟨none, none, none, none, some ⟨none, none, none, none⟩⟩)
        7))).defaults.output_format = none := ⟨rfl, rfl, rfl⟩

/-- Helper: looking up k after consing a binding for k itself. -/
theorem lookup_cons_self (k a2 : String) (es : List (String × String)) :
    List.lookup k ((k, a2) :: es) = some a2 := by
  simp [List.lookup]

/-- Helper: looking up k skips a binding for a different key. -/
theorem lookup_cons_ne (k a1 a2 : String) (hk : k ≠ a1)
    (es : List (String × String)) :
    List.lookup k ((a1, a2) :: es) = List.lookup k es := by
  have hb : (k == a1) = false := beq_eq_false_iff_ne.mpr hk
  simp [List.lookup, hb]

/-- Helper: after the dict assignment d[k] = v, looking up k yields v
(replacement branch). -/
theorem lookup_map_set (k v : String) :
    ∀ d : List (String × String), (d.lookup k).isSome = true →
      ((d.map fun p => if p.1 = k then (k, v) else p).lookup k) = some v := by
  intro d
  induction d with
  | nil => intro h; simp [List.lookup] at h
  | cons a es ih =>
    intro h
    obtain ⟨a1, a2⟩ := a
    rw [List.map_cons]
    by_cases hk : a1 = k
    · subst hk
      have hf : (if (a1, a2).1 = a1 then (a1, v) else (a1, a2)) =
          (a1, v) := by simp
      rw [hf, lookup_cons_self]
    · have hf : (if (a1, a2).1 = k then (k, v) else (a1, a2)) =
          (a1, a2) := by simp [hk]
      rw [lookup_cons_ne k a1 a2 (Ne.symm hk)] at h
      rw [hf, lookup_cons_ne k a1 a2 (Ne.symm hk)]
      exact ih h

/-- Helper: after the dict assignment d[k] = v, looking up k yields v
(append branch, key previously absent). -/
theorem lookup_append_set (k v : String) :
    ∀ d : List (String × String), d.lookup k = none →
      ((d ++ [(k, v)]).lookup k) = some v := by
  intro d
  induction d with
  | nil => intro _; simp [lookup_cons_self]
  | cons a es ih =>
    intro h
    obtain ⟨a1, a2⟩ := a
    by_cases hk : a1 = k
    · subst hk
      rw [lookup_cons_self] at h
      exact absurd h (by simp)
    · rw [lookup_cons_ne k a1 a2 (Ne.symm hk)] at h
      rw [List.cons_append, lookup_cons_ne k a1 a2 (Ne.symm hk)]
      exact ih h

/-- Helper: the dict assignment d[k] = v leaves every other key unchanged
(replacement branch). -/
theorem lookup_map_ne (k v q : String) (hq : q ≠ k) :
    ∀ d : List (String × String),
      ((d.map fun p => if p.1 = k then (k, v) else p).lookup q) =
        d.lookup q := by
  intro d
  induction d with
  | nil => rfl
  | cons a es ih =>
    obtain ⟨a1, a2⟩ := a
    rw [List.map_cons]
    by_cases hk : a1 = k
    · subst hk
      have hf : (if (a1, a2).1 = a1 then (a1, v) else (a1, a2)) =
          (a1, v) := by simp
      rw [hf, lookup_cons_ne q a1 v hq, lookup_cons_ne q a1 a2 hq]
      exact ih
    · have hf : (if (a1, a2).1 = k then (k, v) else (a1, a2)) =
          (a1, a2) := by simp [hk]
      rw [hf]
      by_cases hqa : q = a1
      · subst hqa
        rw [lookup_cons_self, lookup_cons_self]
      · rw [lookup_cons_ne q a1 a2 hqa, lookup_cons_ne q a1 a2 hqa]
        exact ih

/-- Helper: the dict assignment d[k] = v leaves every other key unchanged
(append branch). -/
theorem lookup_append_ne (k v q : String) (hq : q ≠ k) :
    ∀ d : List (String × String), ((d ++ [(k, v)]).lookup q) = d.lookup q := by
  intro d
  induction d with
  | nil =>
    have hb : (q == k) = false := beq_eq_false_iff_ne.mpr hq
    simp [List.lookup, hb]
  | cons a es ih =>
    obtain ⟨a1, a2⟩ := a
    by_cases hqa : q = a1
    · subst hqa
      rw [List.cons_append, lookup_cons_self, lookup_cons_self]
    · rw [List.cons_append, lookup_cons_ne q a1 a2 hqa,
        lookup_cons_ne q a1 a2 hqa]
      exact ih

/-- Python dict assignment d[k] = v: looking up k afterwards yields v. -/
theorem lookup_dictSet_self (k v : String) (d : List (String × String)) :
    (dictSet k v d).lookup k = some v := by
  rw [dictSet]
  split
  · rename_i h
    exact lookup_map_set k v d h
  · rename_i h
    have hn : d.lookup k = none := by
      cases hl : d.lookup k with
      | none => rfl
      | some w => exact absurd (by rw [hl]; rfl) h
    exact lookup_append_set k v d hn

/-- Python dict assignment d[k] = v: every other key is unchanged. -/
theorem lookup_dictSet_ne (k v q : String) (hq : q ≠ k)
    (d : List (String × String)) :
    (dictSet k v d).lookup q = d.lookup q := by
  rw [dictSet]
  split
  · exact lookup_map_ne k v q hq d
  · exact lookup_append_ne k v q hq d

/-- Claim C9 as amended, for every leaf-field setter of config.py
(recent_commits, compare_branch, output_format, active_template, the
current provider, a provider's api key, a provider's model preference and
a named prompt template): set_X(v) followed by load yields a document
whose field X equals v, with every top-level key of the default schema
present (missing top-level keys are backfilled on load) and every other
stored leaf preserved; but nested keys under "defaults" are not
backfilled - a nested key absent from the stored document stays absent.
On a fresh store (no config file) the result is the full default schema
with the set field updated. -/
theorem claim_C9 (stored : Option ConfigDoc) :
    (∀ v : Int,
      (load_config (some (set_default_recent_commits stored
        v))).defaults.recent_commits = some v ∧
      (load_config (some (set_default_recent_commits stored v))).provider =
        (load_config stored).provider ∧
      (load_config (some (set_default_recent_commits stored v))).api_keys =
        (load_config stored).api_keys ∧
      (load_config (some (set_default_recent_commits stored
        v))).model_preferences = (load_config stored).model_preferences ∧
      (load_config (some (set_default_recent_commits stored
        v))).prompt_templates = (load_config stored).prompt_templates ∧
      (load_config (some (set_default_recent_commits stored
        v))).defaults.compare_branch =
        (load_config stored).defaults.compare_branch ∧
      (load_config (some (set_default_recent_commits stored
        v))).defaults.output_format =
        (load_config stored).defaults.output_format ∧
      (load_config (some (set_default_recent_commits stored
        v))).defaults.active_template =
        (load_config stored).defaults.active_template) ∧
    (∀ v : String,
      (load_config (some (set_default_compare_branch stored
        v))).defaults.compare_branch = some v ∧
      (load_config (some (set_default_compare_branch stored v))).provider =
        (load_config stored).provider ∧
      (load_config (some (set_default_compare_branch stored v))).api_keys =
        (load_config stored).api_keys ∧
      (load_config (some (set_default_compare_branch stored
        v))).model_preferences = (load_config stored).model_preferences ∧
      (load_config (some (set_default_compare_branch stored
        v))).prompt_templates = (load_config stored).prompt_templates ∧
      (load_config (some (set_default_compare_branch stored
        v))).defaults.recent_commits =
        (load_config stored).defaults.recent_commits ∧
      (load_config (some (set_default_compare_branch stored
        v))).defaults.output_format =
        (load_config stored).defaults.output_format ∧
      (load_config (some (set_default_compare_branch stored
        v))).defaults.active_template =
        (load_config stored).defaults.active_template) ∧
    (∀ v : String,
      (load_config (some (set_default_output_format stored
        v))).defaults.output_format = some v ∧
      (load_config (some (set_default_output_format stored v))).provider =
        (load_config stored).provider ∧
      (load_config (some (set_default_output_format stored v))).api_keys =
        (load_config stored).api_keys ∧
      (load_config (some (set_default_output_format stored
        v))).model_preferences = (load_config stored).model_preferences ∧
      (load_config (some (set_default_output_format stored
        v))).prompt_templates = (load_config stored).prompt_templates ∧
      (load_config (some (set_default_output_format stored
        v))).defaults.recent_commits =
        (load_config stored).defaults.recent_commits ∧
      (load_config (some (set_default_output_format stored
        v))).defaults.compare_branch =
        (load_config stored).defaults.compare_branch ∧
      (load_config (some (set_default_output_format stored
        v))).defaults.active_template =
        (load_config stored).defaults.active_template) ∧
    (∀ v : String,
      (load_config (some (set_active_template stored
        v))).defaults.active_template = some v ∧
      (load_config (some (set_active_template stored v))).provider =
        (load_config stored).provider ∧
      (load_config (some (set_active_template stored v))).api_keys =
        (load_config stored).api_keys ∧
      (load_config (some (set_active_template stored
        v))).model_preferences = (load_config stored).model_preferences ∧
      (load_config (some (set_active_template stored
        v))).prompt_templates = (load_config stored).prompt_templates ∧
      (load_config (some (set_active_template stored
        v))).defaults.recent_commits =
        (load_config stored).defaults.recent_commits ∧
      (load_config (some (set_active_template stored
        v))).defaults.compare_branch =
        (load_config stored).defaults.compare_branch ∧
      (load_config (some (set_active_template stored
        v))).defaults.output_format =
        (load_config stored).defaults.output_format) ∧
    (∀ v : String,
      (load_config (some (set_current_provider stored v))).provider = v ∧
      (load_config (some (set_current_provider stored v))).api_keys =
        (load_config stored).api_keys ∧
      (load_config (some (set_current_provider stored
        v))).model_preferences = (load_config stored).model_preferences ∧
      (load_config (some (set_current_provider stored
        v))).prompt_templates = (load_config stored).prompt_templates ∧
      (load_config (some (set_current_provider stored v))).defaults =
        (load_config stored).defaults) ∧
    (∀ p v : String,
      (load_config (some (set_provider_api_key stored p
        v))).api_keys.lookup p = some v ∧
      (∀ q, q ≠ p →
        (load_config (some (set_provider_api_key stored p
          v))).api_keys.lookup q = (load_config stored).api_keys.lookup q) ∧
      (load_config (some (set_provider_api_key stored p v))).provider =
        (load_config stored).provider ∧
      (load_config (some (set_provider_api_key stored p
        v))).model_preferences = (load_config stored).model_preferences ∧
      (load_config (some (set_provider_api_key stored p
        v))).prompt_templates = (load_config stored).prompt_templates ∧
      (load_config (some (set_provider_api_key stored p v))).defaults =
        (load_config stored).defaults) ∧
    (∀ p v : String,
      (load_config (some (set_model_for_provider stored p
        v))).model_preferences.lookup p = some v ∧
      (∀ q, q ≠ p →
        (load_config (some (set_model_for_provider stored p
          v))).model_preferences.lookup q =
          (load_config stored).model_preferences.lookup q) ∧
      (load_config (some (set_model_for_provider stored p v))).provider =
        (load_config stored).provider ∧
      (load_config (some (set_model_for_provider stored p v))).api_keys =
        (load_config stored).api_keys ∧
      (load_config (some (set_model_for_provider stored p
        v))).prompt_templates = (load_config stored).prompt_templates ∧
      (load_config (some (set_model_for_provider stored p v))).defaults =
        (load_config stored).defaults) ∧
    (∀ n v : String,
      (load_config (some (set_prompt_template stored n
        v))).prompt_templates.lookup n = some v ∧
      (∀ q, q ≠ n →
        (load_config (some (set_prompt_template stored n
          v))).prompt_templates.lookup q =
          (load_config stored).prompt_templates.lookup q) ∧
      (load_config (some (set_prompt_template stored n v))).provider =
        (load_config stored).provider ∧
      (load_config (some (set_prompt_template stored n v))).api_keys =
        (load_config stored).api_keys ∧
      (load_config (some (set_prompt_template stored n
        v))).model_preferences = (load_config stored).model_preferences ∧
      (load_config (some (set_prompt_template stored n v))).defaults =
        (load_config stored).defaults) ∧
    (stored = none → ∀ v : Int,
      load_config (some (set_default_recent_commits stored v)) =
        { DEFAULT_CONFIG with defaults :=
            { DEFAULT_CONFIG.defaults with recent_commits := some v } }) := by
  refine ⟨?_, ?_, ?_, ?_, ?_, ?_, ?_, ?_, ?_⟩
  · intro v
    refine ⟨?_, ?_, ?_, ?_, ?_, ?_, ?_, ?_⟩ <;>
      simp [set_default_recent_commits, save_config, load_config]
  · intro v
    refine ⟨?_, ?_, ?_, ?_, ?_, ?_, ?_, ?_⟩ <;>
      simp [set_default_compare_branch, save_config, load_config]
  · intro v
    refine ⟨?_, ?_, ?_, ?_, ?_, ?_, ?_, ?_⟩ <;>
      simp [set_default_output_format, save_config, load_config]
  · intro v
    refine ⟨?_, ?_, ?_, ?_, ?_, ?_, ?_, ?_⟩ <;>
      simp [set_active_template, save_config, load_config]
  · intro v
    refine ⟨?_, ?_, ?_, ?_, ?_⟩ <;>
      simp [set_current_provider, save_config, load_config]
  · intro p v
    refine ⟨?_, ?_, ?_, ?_, ?_, ?_⟩
    · simp [set_provider_api_key, save_config, load_config,
        lookup_dictSet_self]
    · intro q hq
      simp [set_provider_api_key, save_config, load_config,
        lookup_dictSet_ne p v q hq]
    all_goals simp [set_provider_api_key, save_config, load_config]
  · intro p v
    refine ⟨?_, ?_, ?_, ?_, ?_, ?_⟩
    · simp [set_model_for_provider, save_config, load_config,
        lookup_dictSet_self]
    · intro q hq
      simp [set_model_for_provider, save_config, load_config,
        lookup_dictSet_ne p v q hq]
    all_goals simp [set_model_for_provider, save_config, load_config]
  · intro n v
    refine ⟨?_, ?_, ?_, ?_, ?_, ?_⟩
    · simp [set_prompt_template, save_config, load_config,
        lookup_dictSet_self]
    · intro q hq
      simp [set_prompt_template, save_config, load_config,
        lookup_dictSet_ne n v q hq]
    all_goals simp [set_prompt_template, save_config, load_config]
  · intro h v
    subst h
    simp [set_default_recent_commits, save_config, load_config]

/-- Witness for C9: the recent-commits round trip on a fresh store, and
the api-key round trip on a store already holding a key for another
provider (the other entry is preserved). -/
theorem claim_C9_witness :
    (load_config (some (set_default_recent_commits none
      9))).defaults.recent_commits = some 9 ∧
    load_config (some (set_default_recent_commits none 9)) =
      { DEFAULT_CONFIG with defaults :=
          { DEFAULT_CONFIG.defaults with recent_commits := some 9 } } ∧
    (load_config (some (set_provider_api_key
        (some ⟨none, some [("openai", "K2")], none, none, none⟩)
        "groq" "NEW"))).api_keys.lookup "groq" = some "NEW" ∧
    (load_config (some (set_provider_api_key
        (some ⟨none, some [("openai", "K2")], none, none, none⟩)
        "groq" "NEW"))).api_keys.lookup "openai" = some "K2" :=
  ⟨((claim_C9 none).1 9).1,
   (claim_C9 none).2.2.2.2.2.2.2.2 rfl 9,
   ((claim_C9 (some ⟨none, some [("openai", "K2")], none, none,
      none⟩)).2.2.2.2.2.1 "groq" "NEW").1,
   ((claim_C9 (some ⟨none, some [("openai", "K2")], none, none,
      none⟩)).2.2.2.2.2.1 "groq" "NEW").2.1 "openai" (by decide)⟩

/-- Helper: the GitError/ModelError catch never lets those two error
classes out, and converts them to the error string. -/
theorem pyCatchGitModel_not_git (body : Except Err String) (m : String) :
    pyCatchGitModel body ≠ .error (.gitError m) := by
  cases body with
  | error e => cases e <;> simp [pyCatchGitModel]
  | ok v => simp [pyCatchGitModel]

theorem pyCatchGitModel_not_model (body : Except Err String) (m : String) :
    pyCatchGitModel body ≠ .error (.modelError m) := by
  cases body with
  | error e => cases e <;> simp [pyCatchGitModel]
  | ok v => simp [pyCatchGitModel]

/-- The property claim C1 asserts of a summarize operation: GitError and
ModelError outcomes of the History Reader query, the Model Client
construction or the Model Client generate call never escape the operation
and are converted to the "Error generating summary: " string. -/
def convertsGitModelErrors
    (op : Summarizer → Option ConfigDoc → Except Err String →
      (Provider → String → Except Err String) → Except Err String) : Prop :=
  ∀ (s : Summarizer) (stored : Option ConfigDoc) (q : Except Err String)
    (gen : Provider → String → Except Err String),
    (∀ m, op s stored q gen ≠ .error (.gitError m)) ∧
    (∀ m, op s stored q gen ≠ .error (.modelError m)) ∧
    (∀ m, q = .error (.gitError m) →
      op s stored q gen = .ok ("Error generating summary: " ++ m)) ∧
    (∀ m, q = .error (.modelError m) →
      op s stored q gen = .ok ("Error generating summary: " ++ m)) ∧
    (∀ m log, q = .ok log →
      get_provider s.provider_name s.api_key (some s.model) =
        .error (.modelError m) →
      op s stored q gen = .ok ("Error generating summary: " ++ m)) ∧
    (∀ m log p prompt, q = .ok log →
      get_provider s.provider_name s.api_key (some s.model) = .ok p →
      create_prompt stored log = .ok prompt →
      gen p prompt = .error (.modelError m) →
      op s stored q gen = .ok ("Error generating summary: " ++ m))

theorem summarize_glue_spec :
    convertsGitModelErrors Summarizer.summarize_recent_commits := by
  intro s stored q gen
  refine ⟨?_, ?_, ?_, ?_, ?_, ?_⟩
  · intro m
    exact pyCatchGitModel_not_git _ m
  · intro m
    exact pyCatchGitModel_not_model _ m
  · intro m hq
    subst hq
    rfl
  · intro m hq
    subst hq
    rfl
  · intro m log hq hp
    subst hq
    simp [Summarizer.summarize_recent_commits, Bind.bind, Except.bind, hp,
      pyCatchGitModel]
  · intro m log p prompt hq hp hcp hgen
    subst hq
    simp [Summarizer.summarize_recent_commits, Bind.bind, Except.bind, hp,
      hcp, hgen, pyCatchGitModel]

/-- Claim C1: all three orchestrator operations (recent-commits summary,
single-commit summary, branch-comparison summary) catch every GitError of
the History Reader and every ModelError of the Model Client and return the
"Error generating summary: " string instead of propagating the error. -/
theorem claim_C1 :
    convertsGitModelErrors Summarizer.summarize_recent_commits ∧
    convertsGitModelErrors Summarizer.summarize_commit ∧
    convertsGitModelErrors Summarizer.compare_branches :=
  ⟨summarize_glue_spec, summarize_glue_spec, summarize_glue_spec⟩

/-- Witness for C1: a failing History Reader and a failing generate call
are both turned into the error string by each operation. -/
theorem claim_C1_witness :
    Summarizer.summarize_recent_commits ⟨"ollama", none, "m"⟩ none
        (.error (.gitError "boom")) (fun _ _ => .ok "S") =
      .ok "Error generating summary: boom" ∧
    Summarizer.summarize_commit ⟨"ollama", none, "m"⟩ none
        (.error (.gitError "boom")) (fun _ _ => .ok "S") =
      .ok "Error generating summary: boom" ∧
    Summarizer.compare_branches ⟨"ollama", none, "m"⟩ none
        (.error (.modelError "down")) (fun _ _ => .ok "S") =
      .ok "Error generating summary: down" :=
  ⟨(claim_C1.1 ⟨"ollama", none, "m"⟩ none (.error (.gitError "boom"))
      (fun _ _ => .ok "S")).2.2.1 "boom" rfl,
   (claim_C1.2.1 ⟨"ollama", none, "m"⟩ none (.error (.gitError "boom"))
      (fun _ _ => .ok "S")).2.2.1 "boom" rfl,
   (claim_C1.2.2 ⟨"ollama", none, "m"⟩ none (.error (.modelError "down"))
      (fun _ _ => .ok "S")).2.2.2.1 "down" rfl⟩

/-- Claim C6: the orchestrator constructor prefers a truthy explicit
override for provider name, credential and model; each omitted (None)
override falls back to the stored settings - the active provider, the
stored credential for the resolved provider, the stored model preference
for the resolved provider. -/
theorem claim_C6 (stored : Option ConfigDoc) (envv : String → Option String)
    (provider_name api_key model : Option String) :
    (∀ p, provider_name = some p → p ≠ "" →
      (Summarizer.init stored envv provider_name api_key
        model).provider_name = p) ∧
    (provider_name = none →
      (Summarizer.init stored envv provider_name api_key
        model).provider_name = get_current_provider stored) ∧
    (∀ k, api_key = some k → k ≠ "" →
      (Summarizer.init stored envv provider_name api_key model).api_key =
        some k) ∧
    (api_key = none →
      (Summarizer.init stored envv provider_name api_key model).api_key =
        get_provider_api_key stored envv
          (Summarizer.init stored envv provider_name api_key
            model).provider_name) ∧
    (∀ mo, model = some mo → mo ≠ "" →
      (Summarizer.init stored envv provider_name api_key model).model =
        mo) ∧
    (model = none →
      (Summarizer.init stored envv provider_name api_key model).model =
        get_model_for_provider stored
          (Summarizer.init stored envv provider_name api_key
            model).provider_name) := by
  refine ⟨?_, ?_, ?_, ?_, ?_, ?_⟩
  · intro p hp hne
    subst hp
    simp [Summarizer.init, pyOrOS, hne]
  · intro hp
    subst hp
    simp [Summarizer.init, pyOrOS]
  · intro k hk hne
    subst hk
    simp [Summarizer.init, pyOrOO, hne]
  · intro hk
    subst hk
    simp [Summarizer.init, pyOrOO]
  · intro mo hm hne
    subst hm
    simp [Summarizer.init, pyOrOS, hne]
  · intro hm
    subst hm
    simp [Summarizer.init, pyOrOS]

/-- Witness for C6: a store holding a credential and a model preference
for provider groq; explicit overrides win, omitted ones fall back. -/
theorem claim_C6_witness :
    (Summarizer.init
        (some ⟨some "groq", some [("groq", "SECRET")],
          some [("groq", "m1")], none, none⟩)
        (fun _ => none) (some "ollama") (some "K") (some "M")).provider_name =
      "ollama" ∧
    (Summarizer.init
        (some ⟨some "groq", some [("groq", "SECRET")],
          some [("groq", "m1")], none, none⟩)
        (fun _ => none) none none none).provider_name = "groq" ∧
    (Summarizer.init
        (some ⟨some "groq", some [("groq", "SECRET")],
          some [("groq", "m1")], none, none⟩)
        (fun _ => none) none none none).api_key =
      get_provider_api_key
        (some ⟨some "groq", some [("groq", "SECRET")],
          some [("groq", "m1")], none, none⟩) (fun _ => none) "groq" ∧
    (Summarizer.init
        (some ⟨some "groq", some [("groq", "SECRET")],
          some [("groq", "m1")], none, none⟩)
        (fun _ => none) none none none).model =
      get_model_for_provider
        (some ⟨some "groq", some [("groq", "SECRET")],
          some [("groq", "m1")], none, none⟩) "groq" := by
  refine ⟨?_, ?_, ?_, ?_⟩
  · exact (claim_C6 _ (fun _ => none) (some "ollama") (some "K")
      (some "M")).1 "ollama" rfl (by decide)
  · exact (claim_C6 _ (fun _ => none) none none none).2.1 rfl
  · exact (claim_C6 _ (fun _ => none) none none none).2.2.2.1 rfl
  · exact (claim_C6 _ (fun _ => none) none none none).2.2.2.2.2 rfl

/-- Claim C10: a provider name outside the dispatch table - "anthropic"
included, whose backend class exists but is not registered - makes
get_provider raise ValueError, and since the orchestrator catches only
GitError and ModelError, the ValueError propagates out of all three
summarize operations instead of being converted to an error string. -/
theorem claim_C10 (name : String) (key mo : Option String)
    (h : name ∉ (["groq", "openai", "gemini", "ollama"] : List String)) :
    get_provider name key mo =
      .error (.valueError ("Unknown provider: " ++ name)) ∧
    ∀ (s : Summarizer), s.provider_name = name → s.api_key = key →
      s.model = "" → ∀ (stored : Option ConfigDoc) (log : String)
      (gen : Provider → String → Except Err String),
      Summarizer.summarize_recent_commits s stored (.ok log) gen =
        .error (.valueError ("Unknown provider: " ++ name)) ∧
      Summarizer.summarize_commit s stored (.ok log) gen =
        .error (.valueError ("Unknown provider: " ++ name)) ∧
      Summarizer.compare_branches s stored (.ok log) gen =
        .error (.valueError ("Unknown provider: " ++ name)) := by
  simp only [List.mem_cons, List.mem_singleton, not_or] at h
  obtain ⟨h1, h2, h3, h4, -⟩ := h
  have hgp : ∀ k m, get_provider name k m =
      .error (.valueError ("Unknown provider: " ++ name)) := by
    intro k m
    rw [get_provider, if_neg h1, if_neg h2, if_neg h3, if_neg h4]
  refine ⟨hgp key mo, ?_⟩
  intro s hname hkey hmodel stored log gen
  refine ⟨?_, ?_, ?_⟩ <;>
    simp [Summarizer.summarize_recent_commits, Summarizer.summarize_commit,
      Summarizer.compare_branches, Bind.bind, Except.bind, hname,
      hgp s.api_key (some s.model), pyCatchGitModel]

/-- Witness for C10 at the unregistered provider name "anthropic". -/
theorem claim_C10_witness :
    get_provider "anthropic" none none =
      .error (.valueError "Unknown provider: anthropic") ∧
    Summarizer.summarize_recent_commits ⟨"anthropic", none, ""⟩ none
        (.ok "L") (fun _ _ => .ok "S") =
      .error (.valueError "Unknown provider: anthropic") :=
  ⟨(claim_C10 "anthropic" none none (by decide)).1,
   ((claim_C10 "anthropic" none none (by decide)).2 ⟨"anthropic", none, ""⟩
      rfl rfl rfl none "L" (fun _ _ => .ok "S")).1⟩

end GitSummarizer
